import Mathlib

/-!
Verification of the openclaw smart-router core against its specification.

Scores, costs and averages are embedded as rationals; machine counters and
calendar days as naturals. The agent-economy evaluator
(`SmartRouterEvaluator` in the repository's guide) is translated directly
from its JavaScript. The storage, analyzer and selector operations, whose
implementation files are not part of the staged sources (only their test
drivers are), are modelled from the specification text; each such
definition is marked `Modelled from the spec`.
-/

namespace SmartRouter

namespace Evaluator

/-- The evaluator's routing thresholds, translated from the guide's
`selectModel(complexity)`: haiku below 0.3, sonnet below 0.6, opus below
0.8, opus again at and above 0.8. -/
def selectModel (complexity : ℚ) : String :=
  if complexity < 3/10 then "claude-haiku-4.5"
  else if complexity < 6/10 then "claude-sonnet-4.5"
  else if complexity < 8/10 then "claude-opus-4.6"
  else "claude-opus-4.6"

/-- The shape of an observed API call, as the evaluator's
`analyzeComplexity(call)` reads it: `inputTokens`, `hasCode`, `prompt`
(split on single spaces to count words) and `taskType`. -/
structure Call where
  inputTokens : ℕ
  hasCode : Bool
  prompt : String
  taskType : String

/-- `call.prompt.split(' ').length` of the JavaScript: the number of
single-space-separated fields of the prompt. -/
def questionWords (p : String) : ℕ := (p.toList.splitOn ' ').length

/-- The evaluator's `analyzeComplexity(call)`, translated statement by
statement: a capped context-length term, a code-presence increment, a
capped question-length term, sequential task-type increments, and a final
cap at 1.0. -/
def analyzeComplexity (call : Call) : ℚ :=
  let s1 : ℚ := min ((call.inputTokens : ℚ) / 100000) (3/10)
  let s2 : ℚ := if call.hasCode then s1 + 2/10 else s1
  let s3 : ℚ := s2 + min ((questionWords call.prompt : ℚ) / 200) (3/10)
  let s4 : ℚ := if call.taskType = "reasoning" then s3 + 2/10 else s3
  let s5 : ℚ := if call.taskType = "research" then s4 + 15/100 else s4
  let s6 : ℚ := if call.taskType = "coding" then s5 + 15/100 else s5
  let s7 : ℚ := if call.taskType = "writing" then s6 + 5/100 else s6
  min s7 1

/-- The total task-type contribution of the four sequential conditionals of
`analyzeComplexity`, as a single function of the task type. -/
def taskTypeBonus (t : String) : ℚ :=
  (if t = "reasoning" then 2/10 else 0)
  + (if t = "research" then 15/100 else 0)
  + (if t = "coding" then 15/100 else 0)
  + (if t = "writing" then 5/100 else 0)

end Evaluator

namespace Storage

/-- Modelled from the spec: the subscription tiers of the quota gate
(src/storage.js is not among the staged sources). -/
inductive Tier
  | free
  | pro
deriving DecidableEq

/-- Modelled from the spec: one wallet's quota record — tier, the daily
decision counter, the daily limit (`none` is the unlimited sentinel), the
day of the last counter reset, and the optional paid-until day. -/
structure Quota where
  tier : Tier
  decisions_today : ℕ
  decisions_limit : Option ℕ
  last_reset : ℕ
  paid_until : Option ℕ
deriving DecidableEq

/-- The default free-tier daily decision limit. -/
def defaultLimit : ℕ := 100

/-- Modelled from the spec: the free-tier record lazily created for a
wallet on first access. -/
def defaultQuota (today : ℕ) : Quota :=
  { tier := .free, decisions_today := 0, decisions_limit := some defaultLimit,
    last_reset := today, paid_until := none }

/-- Modelled from the spec: the date-rollover reset — when the stored
`last_reset` day differs from the current day, `decisions_today` resets to
0 and `last_reset` moves to the current day. -/
def rolloverQuota (q : Quota) (today : ℕ) : Quota :=
  if q.last_reset = today then q
  else { q with decisions_today := 0, last_reset := today }

/-- Modelled from the spec: `getQuota` — lazily creates the default record
if absent, then applies the date rollover. -/
def getQuota (st : Option Quota) (today : ℕ) : Quota :=
  rolloverQuota (st.getD (defaultQuota today)) today

/-- Modelled from the spec: the tier used for gating — a stored pro tier
whose `paid_until` day is in the past counts as free, with no explicit
downgrade call. -/
def effectiveTier (q : Quota) (today : ℕ) : Tier :=
  match q.tier, q.paid_until with
  | .pro, some d => if d < today then .free else .pro
  | .pro, none => .pro
  | .free, _ => .free

/-- The remaining-allowance field of a quota check: a finite count for the
free tier, the unlimited sentinel for a non-expired pro tier. -/
inductive Remaining
  | unlimited
  | limited (n : ℕ)
deriving DecidableEq

/-- The result record of `checkQuotaAvailable`. -/
structure QuotaCheck where
  available : Bool
  remaining : Remaining
deriving DecidableEq

/-- Modelled from the spec: `checkQuotaAvailable` — for the (effective)
free tier, available iff `decisions_today < decisions_limit` with
`remaining = decisions_limit - decisions_today`; for a non-expired pro
tier, available with unlimited remaining. A free-tier record left with the
unlimited sentinel after a lazy expiry is gated at the default cap. -/
def checkQuotaAvailable (st : Option Quota) (today : ℕ) : QuotaCheck :=
  let q := getQuota st today
  match effectiveTier q today with
  | .pro => { available := true, remaining := .unlimited }
  | .free =>
    let lim := q.decisions_limit.getD defaultLimit
    { available := decide (q.decisions_today < lim),
      remaining := .limited (lim - q.decisions_today) }

/-- Modelled from the spec: `incrementDecisionCount` — the date rollover
followed by one atomic increment of `decisions_today`. -/
def incrementDecisionCount (st : Option Quota) (today : ℕ) : Option Quota :=
  let q := getQuota st today
  some { q with decisions_today := q.decisions_today + 1 }

/-- Modelled from the spec: `updateAgentTier` — overwrites the tier and
`paid_until`, setting the limit to the unlimited sentinel on an upgrade to
pro and restoring the default cap on a downgrade to free. -/
def updateAgentTier (st : Option Quota) (today : ℕ) (t : Tier)
    (paid_until : Option ℕ) : Option Quota :=
  let q := getQuota st today
  some { q with
    tier := t
    decisions_limit := (match t with
      | .pro => none
      | .free => some defaultLimit)
    paid_until := paid_until }

/-- Modelled from the spec: the recorded outcome of a routed request —
success flag, actual tokens and cost, response quality and latency
(src/storage.js is not among the staged sources). -/
structure Outcome where
  was_successful : Bool
  actual_tokens : ℕ
  actual_cost_usd : ℚ
  response_quality : ℚ
  response_time_ms : ℕ
deriving DecidableEq

/-- Modelled from the spec: one persisted routing decision — wallet, the
embedded task-analysis fields, the selection, the ordered alternatives and
the optional outcome, overwritten when an outcome is recorded. -/
structure Decision where
  agent_wallet : String
  task_complexity : ℚ
  context_length : ℕ
  task_type : String
  has_code : Bool
  has_errors : Bool
  has_data : Bool
  selected_model : String
  selected_provider : String
  selection_reason : String
  confidence_score : ℚ
  alternatives : List (String × ℚ × String)
  outcome : Option Outcome
deriving DecidableEq

/-- The decision log, keyed by decision id. -/
def DecisionStore : Type := String → Option Decision

/-- Modelled from the spec: `getDecision` — a missing id is a not-found
result. -/
def getDecision (st : DecisionStore) (id : String) : Option Decision := st id

/-- The overwrite `recordOutcome` performs on the stored decision: the
outcome fields are replaced, never accumulated. -/
def setOutcome (st : DecisionStore) (id : String) (o : Outcome) : DecisionStore :=
  fun j =>
    if j = id then (st j).map (fun dec => { dec with outcome := some o })
    else st j

/-- Modelled from the spec: `recordOutcome` — overwrites the decision's
outcome; an unknown decision id fails with a not-found error. -/
def recordOutcome (st : DecisionStore) (id : String) (o : Outcome) :
    Except String DecisionStore :=
  match st id with
  | none => .error "decision not found"
  | some _ => .ok (setOutcome st id o)

/-- Modelled from the spec: the per (wallet, model, task_type) aggregate —
request count, running averages of cost, quality and latency, and the
success rate. -/
structure ModelPerformance where
  total_requests : ℕ
  avg_cost : ℚ
  avg_quality : ℚ
  avg_latency : ℚ
  success_rate : ℚ
deriving DecidableEq

/-- Modelled from the spec: the neutral default returned for a key never
observed — success rate 0.5, zero requests. -/
def defaultPerformance : ModelPerformance :=
  { total_requests := 0, avg_cost := 0, avg_quality := 0, avg_latency := 0,
    success_rate := 1/2 }

/-- The incremental-mean update of the spec:
`new_average = old_average + (value - old_average) / new_count`. -/
def stepMean (old value : ℚ) (newCount : ℕ) : ℚ :=
  old + (value - old) / newCount

/-- Modelled from the spec: `updateModelPerformance` — one incremental-mean
step on each running average, success counted as 1 and failure as 0. -/
def updateModelPerformance (p : ModelPerformance) (o : Outcome) :
    ModelPerformance :=
  let n := p.total_requests + 1
  { total_requests := n
    avg_cost := stepMean p.avg_cost o.actual_cost_usd n
    avg_quality := stepMean p.avg_quality o.response_quality n
    avg_latency := stepMean p.avg_latency (o.response_time_ms : ℚ) n
    success_rate := stepMean p.success_rate (if o.was_successful then 1 else 0) n }

/-- A finite sequence of outcomes applied in order to one aggregate key. -/
def applyOutcomes (p : ModelPerformance) (l : List Outcome) : ModelPerformance :=
  l.foldl updateModelPerformance p

/-- The performance table, keyed by (wallet, model, task_type). -/
def PerformanceStore : Type := String × String × String → Option ModelPerformance

/-- Modelled from the spec: `getModelPerformance` — the current aggregate,
or the neutral default when the key has never been observed; never fails. -/
def getModelPerformance (st : PerformanceStore) (wallet model task_type : String) :
    ModelPerformance :=
  (st (wallet, model, task_type)).getD defaultPerformance

/-- Modelled from the spec: one learned pattern row — wallet scope, task
type, complexity and context-length ranges, the recommendation, and the
observed counts with their derived confidence. -/
structure Pattern where
  agent_wallet : String
  task_type : String
  complexity_min : ℚ
  complexity_max : ℚ
  context_length_min : ℕ
  context_length_max : ℕ
  recommended_model : String
  recommended_provider : String
  success_count : ℕ
  failure_count : ℕ
  confidence : ℚ
deriving DecidableEq

/-- Modelled from the spec: the dampened confidence — with
`n = success_count + failure_count` and `raw = success_count / n`, the
confidence is `raw` when `n ≥ 5` and `raw * (n / 5)` below the 5-sample
threshold. -/
def patternConfidence (success_count failure_count : ℕ) : ℚ :=
  let n := success_count + failure_count
  if n = 0 then 0
  else if 5 ≤ n then (success_count : ℚ) / n
  else ((success_count : ℚ) / n) * ((n : ℚ) / 5)

/-- Modelled from the spec: `updatePatternStats` — increments the success
or failure count and recomputes the confidence; the cost and quality
arguments are accepted but do not enter the confidence. -/
def updatePatternStats (p : Pattern) (success : Bool) (cost quality : ℚ) :
    Pattern :=
  let s := if success then p.success_count + 1 else p.success_count
  let f := if success then p.failure_count else p.failure_count + 1
  { p with
    success_count := s
    failure_count := f
    confidence := patternConfidence s f }

end Storage

namespace Selector

/-- Modelled from the spec: one scored candidate model of the selector —
its identity, the four sub-scores, and its estimated cost (src/selector.js
is not among the staged sources). -/
structure Candidate where
  model : String
  provider : String
  complexity_match : ℚ
  budget_constraint : ℚ
  pattern_match : ℚ
  performance : ℚ
  estimated_cost : ℚ
deriving DecidableEq

/-- Modelled from the spec: `total_score = 0.4 * complexity_match
+ 0.3 * budget_constraint + 0.2 * pattern_match + 0.1 * performance`. -/
def totalScore (c : Candidate) : ℚ :=
  4/10 * c.complexity_match + 3/10 * c.budget_constraint
    + 2/10 * c.pattern_match + 1/10 * c.performance

/-- The selector's pairwise choice: the higher total score wins, and a tie
goes to the lower estimated cost. -/
def betterCandidate (a b : Candidate) : Candidate :=
  if totalScore a < totalScore b then b
  else if totalScore b = totalScore a ∧ b.estimated_cost < a.estimated_cost then b
  else a

/-- Modelled from the spec: `selectModel` over the configured candidate
list; the empty configuration is the fatal configuration error. -/
def selectModel (candidates : List Candidate) : Option Candidate :=
  match candidates with
  | [] => none
  | c :: rest => some (rest.foldl betterCandidate c)

end Selector

namespace Analyzer

/-- The fixed task-type enumeration of the spec, in priority order. -/
inductive TaskType
  | debugging
  | code
  | reasoning
  | writing
  | query
deriving DecidableEq

/-- A raw completion request: prompt text and optional context text. -/
structure RouteRequest where
  prompt : String
  context : String

/-- Modelled from the spec: the TaskAnalysis record the analyzer returns
(src/analyzer.js is not among the staged sources). -/
structure TaskAnalysis where
  complexity_score : ℚ
  task_type : TaskType
  estimated_tokens : ℕ
  has_code : Bool
  has_errors : Bool
  has_data : Bool
  context_length : ℕ

/-- Keyword presence: whether any of the keywords occurs in the text. -/
def containsAny (s : String) (keys : List String) : Bool :=
  keys.any (fun k => decide (List.IsInfix k.toList s.toList))

/-- The combined text the keyword detectors scan. -/
def fullText (req : RouteRequest) : String := req.prompt ++ " " ++ req.context

/-- Modelled from the spec: the code-block / code-like-syntax detector. -/
def detectCode (req : RouteRequest) : Bool :=
  containsAny (fullText req) ["```", "function", "class ", "def ", "=>", "();"]

/-- Modelled from the spec: the error / stack-trace marker detector. -/
def detectErrors (req : RouteRequest) : Bool :=
  containsAny (fullText req)
    ["Error", "error", "Exception", "exception", "traceback", "stack trace"]

/-- Modelled from the spec: the structured-data detector. -/
def detectData (req : RouteRequest) : Bool :=
  containsAny (fullText req) ["json", "csv", "dataset", "table"]

/-- Modelled from the spec: the multi-clause / analytical-language
detector. -/
def detectReasoning (req : RouteRequest) : Bool :=
  containsAny (fullText req)
    ["Analyze", "analyze", "compare", "tradeoff", "Consider", "consider",
     "why", "explain"]

/-- Modelled from the spec: the debugging-category detector — error
markers or explicit fix/debug language. -/
def detectDebugging (req : RouteRequest) : Bool :=
  detectErrors req || containsAny (fullText req) ["fix", "Fix", "debug", "bug"]

/-- Modelled from the spec: the writing-category detector. -/
def detectWriting (req : RouteRequest) : Bool :=
  containsAny (fullText req)
    ["Write", "write", "draft", "README", "document", "essay"]

/-- Modelled from the spec: task_type is chosen by testing the categories
in the priority order debugging, code, reasoning, writing and returning
the first match, with query as the default. -/
def classifyTaskType (req : RouteRequest) : TaskType :=
  if detectDebugging req then .debugging
  else if detectCode req then .code
  else if detectReasoning req then .reasoning
  else if detectWriting req then .writing
  else .query

/-- The fixed characters-per-token constant of the analyzer. -/
def charsPerToken : ℕ := 4

/-- Modelled from the spec: estimated_tokens — the combined input length
divided by the characters-per-token constant. -/
def estimatedTokens (req : RouteRequest) : ℕ :=
  (req.prompt.length + req.context.length) / charsPerToken

/-- Clamp a score to [0, 1]. -/
def clamp01 (x : ℚ) : ℚ := min (max x 0) 1

/-- Modelled from the spec: complexity_score — the clamped sum of a capped
length contribution and fixed increments for detected code, errors and
analytical language. -/
def complexityScore (req : RouteRequest) : ℚ :=
  clamp01 (min ((estimatedTokens req : ℚ) / 1000) (3/10)
    + (if detectCode req then (2:ℚ)/10 else 0)
    + (if detectErrors req then (2:ℚ)/10 else 0)
    + (if detectReasoning req then (2:ℚ)/10 else 0))

/-- Modelled from the spec: `analyzeTask` — total on every request,
including the empty one. -/
def analyzeTask (req : RouteRequest) : TaskAnalysis :=
  { complexity_score := complexityScore req
    task_type := classifyTaskType req
    estimated_tokens := estimatedTokens req
    has_code := detectCode req
    has_errors := detectErrors req
    has_data := detectData req
    context_length := req.context.length }

end Analyzer

end SmartRouter

namespace SmartRouter

namespace Evaluator

/-- Rewriting of `analyzeComplexity` as a clamped sum: the four sequential
task-type conditionals collapse to `taskTypeBonus`, since a task type
equals at most one of the four tested strings. -/
theorem analyzeComplexity_eq (call : Call) :
    analyzeComplexity call =
      min (min ((call.inputTokens : ℚ) / 100000) (3/10)
        + (if call.hasCode then (2:ℚ)/10 else 0)
        + min ((questionWords call.prompt : ℚ) / 200) (3/10)
        + taskTypeBonus call.taskType) 1 := by
  rcases call with ⟨tok, hc, p, t⟩
  unfold analyzeComplexity taskTypeBonus
  simp only
  by_cases h1 : t = "reasoning" <;> by_cases h2 : t = "research" <;>
    by_cases h3 : t = "coding" <;> by_cases h4 : t = "writing" <;>
    simp_all <;> cases hc <;> simp

/-- Every task-type increment of `analyzeComplexity` is nonnegative. -/
theorem taskTypeBonus_nonneg (t : String) : 0 ≤ taskTypeBonus t := by
  unfold taskTypeBonus
  split_ifs <;> norm_num

/-- C9: the evaluator's `selectModel` is total over all complexity values
and returns one of exactly three models — haiku below 0.3, sonnet on
[0.3, 0.6), and opus for every complexity at or above 0.6, the separate
expert branch at 0.8 being behaviorally identical to the complex branch. -/
theorem selectModel_three_models (c : ℚ) :
    (selectModel c = "claude-haiku-4.5" ∨ selectModel c = "claude-sonnet-4.5"
      ∨ selectModel c = "claude-opus-4.6")
    ∧ (c < 3/10 → selectModel c = "claude-haiku-4.5")
    ∧ (3/10 ≤ c → c < 6/10 → selectModel c = "claude-sonnet-4.5")
    ∧ (6/10 ≤ c → selectModel c = "claude-opus-4.6") := by
  refine ⟨?_, ?_, ?_, ?_⟩
  · unfold selectModel
    split_ifs <;> simp
  · intro h
    unfold selectModel
    rw [if_pos h]
  · intro h1 h2
    unfold selectModel
    rw [if_neg (not_lt.mpr h1), if_pos h2]
  · intro h
    unfold selectModel
    rw [if_neg (not_lt.mpr (le_trans (by norm_num) h)),
        if_neg (not_lt.mpr (le_trans (by norm_num) h))]
    split_ifs <;> rfl

/-- C9 witness: the opus band evaluated at the concrete complexity 0.7. -/
theorem selectModel_three_models_witness :
    (6:ℚ)/10 ≤ 7/10 ∧ selectModel (7/10) = "claude-opus-4.6" :=
  ⟨by norm_num, (selectModel_three_models (7/10)).2.2.2 (by norm_num)⟩

/-- C10: the evaluator's `analyzeComplexity` is monotone nondecreasing in
input tokens, word count, the code flag and the task-type contribution,
and every returned score lies in [0, 1]. -/
theorem analyzeComplexity_monotone_bounds (c1 c2 : Call)
    (htok : c1.inputTokens ≤ c2.inputTokens)
    (hwords : questionWords c1.prompt ≤ questionWords c2.prompt)
    (hcode : c1.hasCode = true → c2.hasCode = true)
    (hbonus : taskTypeBonus c1.taskType ≤ taskTypeBonus c2.taskType) :
    analyzeComplexity c1 ≤ analyzeComplexity c2
    ∧ 0 ≤ analyzeComplexity c1 ∧ analyzeComplexity c1 ≤ 1 := by
  have hA : min ((c1.inputTokens : ℚ) / 100000) (3/10)
      ≤ min ((c2.inputTokens : ℚ) / 100000) (3/10) := by
    gcongr
  have hB : (if c1.hasCode then (2:ℚ)/10 else 0)
      ≤ (if c2.hasCode then (2:ℚ)/10 else 0) := by
    by_cases hc1 : c1.hasCode = true
    · rw [if_pos hc1, if_pos (hcode hc1)]
    · rw [if_neg hc1]
      split_ifs <;> norm_num
  have hC : min ((questionWords c1.prompt : ℚ) / 200) (3/10)
      ≤ min ((questionWords c2.prompt : ℚ) / 200) (3/10) := by
    gcongr
  refine ⟨?_, ?_, ?_⟩
  · rw [analyzeComplexity_eq, analyzeComplexity_eq]
    exact min_le_min (add_le_add (add_le_add (add_le_add hA hB) hC) hbonus) le_rfl
  · rw [analyzeComplexity_eq]
    refine le_min ?_ (by norm_num)
    have h1 : (0:ℚ) ≤ min ((c1.inputTokens : ℚ) / 100000) (3/10) :=
      le_min (by positivity) (by norm_num)
    have h2 : (0:ℚ) ≤ (if c1.hasCode then (2:ℚ)/10 else 0) := by
      split_ifs <;> norm_num
    have h3 : (0:ℚ) ≤ min ((questionWords c1.prompt : ℚ) / 200) (3/10) :=
      le_min (by positivity) (by norm_num)
    have h4 := taskTypeBonus_nonneg c1.taskType
    linarith
  · rw [analyzeComplexity_eq]
    exact min_le_right _ _

/-- C10 witness: the monotonicity and range bounds at a concrete pair of
calls, the larger one with more tokens, more words, code present and the
reasoning task type. -/
theorem analyzeComplexity_monotone_bounds_witness :
    analyzeComplexity ⟨0, false, "", "query"⟩
      ≤ analyzeComplexity ⟨50000, true, "a b", "reasoning"⟩
    ∧ 0 ≤ analyzeComplexity ⟨0, false, "", "query"⟩
    ∧ analyzeComplexity ⟨0, false, "", "query"⟩ ≤ 1 :=
  analyzeComplexity_monotone_bounds _ _ (by decide) (by decide) (by decide)
    (by simp [taskTypeBonus]; norm_num)

end Evaluator

namespace Storage

/-- The date rollover always leaves `last_reset` at the current day. -/
theorem rolloverQuota_last_reset (q : Quota) (d : ℕ) :
    (rolloverQuota q d).last_reset = d := by
  unfold rolloverQuota
  split_ifs with h
  · exact h
  · rfl

/-- A record read through `getQuota` carries the current day as its
`last_reset`. -/
theorem getQuota_last_reset (st : Option Quota) (d : ℕ) :
    (getQuota st d).last_reset = d :=
  rolloverQuota_last_reset _ _

/-- Same-day increments from a fresh wallet accumulate one by one into the
lazily created free-tier record. -/
theorem iterate_increment (d k : ℕ) :
    (fun s => incrementDecisionCount s d)^[k + 1] (none : Option Quota)
      = some { tier := .free, decisions_today := k + 1,
               decisions_limit := some defaultLimit, last_reset := d,
               paid_until := none } := by
  induction k with
  | zero =>
      simp [incrementDecisionCount, getQuota, rolloverQuota, defaultQuota]
  | succ n ih =>
      rw [Function.iterate_succ_apply', ih]
      simp [incrementDecisionCount, getQuota, rolloverQuota]

/-- C4: a never-seen wallet checks as available with the full default
free-tier limit remaining, and after exactly `defaultLimit` same-day
increments it checks as unavailable with zero remaining. -/
theorem checkQuota_fresh_and_exhausted (d : ℕ) :
    checkQuotaAvailable none d
        = { available := true, remaining := .limited defaultLimit }
    ∧ checkQuotaAvailable
        ((fun s => incrementDecisionCount s d)^[defaultLimit] none) d
        = { available := false, remaining := .limited 0 } := by
  constructor
  · simp [checkQuotaAvailable, getQuota, rolloverQuota, defaultQuota,
      effectiveTier, defaultLimit]
  · rw [show defaultLimit = 99 + 1 from rfl, iterate_increment d 99]
    simp [checkQuotaAvailable, getQuota, rolloverQuota, effectiveTier,
      defaultLimit]

/-- A stored pro record whose `paid_until` has not passed checks as
available with unlimited remaining. -/
theorem checkQuota_pro (q : Quota) (d t : ℕ) (hlr : q.last_reset = d)
    (hq : q.tier = .pro) (hp : q.paid_until = some t) (hf : d ≤ t) :
    checkQuotaAvailable (some q) d
      = { available := true, remaining := .unlimited } := by
  have heff : effectiveTier q d = .pro := by
    unfold effectiveTier
    rw [hq, hp]
    simp [Nat.not_lt.mpr hf]
  unfold checkQuotaAvailable getQuota rolloverQuota
  simp only [Option.getD_some]
  rw [if_pos hlr, heff]

/-- C5: upgrading any wallet to pro with a future `paid_until` makes the
quota check return available and unlimited regardless of the prior counter,
and a stored pro tier whose `paid_until` lies in the past is gated as free
with no explicit downgrade call. -/
theorem pro_update_and_lazy_expiry (st : Option Quota) (d t : ℕ)
    (q : Quota) (t2 : ℕ)
    (hfuture : d ≤ t) (hq : q.tier = .pro) (hp : q.paid_until = some t2)
    (hpast : t2 < d) :
    checkQuotaAvailable (updateAgentTier st d .pro (some t)) d
        = { available := true, remaining := .unlimited }
    ∧ effectiveTier q d = .free := by
  constructor
  · exact checkQuota_pro _ d t (getQuota_last_reset st d) rfl rfl hfuture
  · unfold effectiveTier
    rw [hq, hp]
    simp [hpast]

/-- C5 witness: a wallet with 42 decisions today upgraded on day 10 until
day 20, and a pro record expired on day 3 gated on day 10. -/
theorem pro_update_and_lazy_expiry_witness :
    checkQuotaAvailable
        (updateAgentTier (some ⟨.free, 42, some defaultLimit, 10, none⟩) 10
          .pro (some 20)) 10
        = { available := true, remaining := .unlimited }
    ∧ effectiveTier ⟨.pro, 0, none, 3, some 3⟩ 10 = .free :=
  pro_update_and_lazy_expiry (some ⟨.free, 42, some defaultLimit, 10, none⟩)
    10 20 ⟨.pro, 0, none, 3, some 3⟩ 3 (by norm_num) rfl rfl (by norm_num)

end Storage

end SmartRouter

namespace SmartRouter

namespace Storage

/-- The dampened-confidence formula: the raw ratio at or above the
5-sample threshold, the linearly dampened ratio below it, and strictness
of the dampening for a positive success count. -/
theorem patternConfidence_spec (s f : ℕ) :
    (5 ≤ s + f → patternConfidence s f = (s : ℚ) / (s + f : ℕ))
    ∧ (s + f < 5 → patternConfidence s f
        = ((s : ℚ) / (s + f : ℕ)) * (((s + f : ℕ) : ℚ) / 5))
    ∧ (s + f < 5 → 0 < s → s < s + f →
        patternConfidence s f < (s : ℚ) / (s + f : ℕ)) := by
  refine ⟨?_, ?_, ?_⟩
  · intro h5
    unfold patternConfidence
    rw [if_neg (by omega), if_pos h5]
  · intro h5
    unfold patternConfidence
    by_cases h0 : s + f = 0
    · rw [if_pos h0, h0]
      norm_num
    · rw [if_neg h0, if_neg (by omega)]
  · intro h5 hs hn
    have h0 : 0 < s + f := by omega
    unfold patternConfidence
    rw [if_neg (by omega), if_neg (by omega)]
    have hpos : (0 : ℚ) < (s : ℚ) / (s + f : ℕ) := by
      apply div_pos
      · exact_mod_cast hs
      · exact_mod_cast h0
    have hlt1 : ((s + f : ℕ) : ℚ) / 5 < 1 := by
      rw [div_lt_one (by norm_num)]
      exact_mod_cast h5
    exact mul_lt_of_lt_one_right hpos hlt1

/-- C3 (amended): after `updatePatternStats` the confidence is
`success_count / n` when `n ≥ 5` and `(success_count / n) * (n / 5)` when
`n < 5`, and for `n < 5` the stored confidence is strictly below the
undampened ratio whenever `0 < success_count < n`; with a zero success
count the two are equal, so strictness needs the positivity hypothesis. -/
theorem updatePatternStats_confidence (p : Pattern) (success : Bool)
    (cost quality : ℚ) (s f n : ℕ)
    (hs : s = (updatePatternStats p success cost quality).success_count)
    (hf : f = (updatePatternStats p success cost quality).failure_count)
    (hn : n = s + f) :
    (5 ≤ n → (updatePatternStats p success cost quality).confidence = (s : ℚ) / n)
    ∧ (n < 5 → (updatePatternStats p success cost quality).confidence
        = ((s : ℚ) / n) * ((n : ℚ) / 5))
    ∧ (n < 5 → 0 < s → s < n →
        (updatePatternStats p success cost quality).confidence < (s : ℚ) / n) := by
  subst hn
  have hconf : (updatePatternStats p success cost quality).confidence
      = patternConfidence s f := by
    rw [hs, hf]
    rfl
  rw [hconf]
  exact_mod_cast patternConfidence_spec s f

/-- C3 witness: one pattern at one success and one failure — confidence
(1/2)·(2/5), strictly below the raw ratio 1/2. -/
theorem updatePatternStats_confidence_witness :
    ((5:ℕ) ≤ (2:ℕ) →
      (updatePatternStats ⟨"w", "code", 0, 1, 0, 1000, "m", "a", 1, 0, 0⟩
          false 0 0).confidence
        = ((1:ℕ) : ℚ) / ((2:ℕ) : ℚ))
    ∧ ((2:ℕ) < 5 →
      (updatePatternStats ⟨"w", "code", 0, 1, 0, 1000, "m", "a", 1, 0, 0⟩
          false 0 0).confidence
        = (((1:ℕ) : ℚ) / ((2:ℕ) : ℚ)) * (((2:ℕ) : ℚ) / 5))
    ∧ ((2:ℕ) < 5 → (0:ℕ) < 1 → (1:ℕ) < 2 →
      (updatePatternStats ⟨"w", "code", 0, 1, 0, 1000, "m", "a", 1, 0, 0⟩
          false 0 0).confidence
        < ((1:ℕ) : ℚ) / ((2:ℕ) : ℚ)) :=
  updatePatternStats_confidence _ false 0 0 1 1 2 rfl rfl rfl

/-- C3 counterexample: a pattern whose single observation is a failure has
n = 1 < 5 and success_count = 0 < n, yet its stored confidence 0 is not
strictly below the undampened ratio 0/1 = 0 — the claim's strict
inequality fails without a positive success count. -/
theorem updatePatternStats_not_strict_cex :
    ((updatePatternStats ⟨"w", "code", 0, 1, 0, 1000, "m", "a", 0, 0, 0⟩
          false 0 0).success_count
        + (updatePatternStats ⟨"w", "code", 0, 1, 0, 1000, "m", "a", 0, 0, 0⟩
          false 0 0).failure_count < 5)
    ∧ ((updatePatternStats ⟨"w", "code", 0, 1, 0, 1000, "m", "a", 0, 0, 0⟩
          false 0 0).success_count
        < (updatePatternStats ⟨"w", "code", 0, 1, 0, 1000, "m", "a", 0, 0, 0⟩
            false 0 0).success_count
          + (updatePatternStats ⟨"w", "code", 0, 1, 0, 1000, "m", "a", 0, 0, 0⟩
            false 0 0).failure_count)
    ∧ ¬ ((updatePatternStats ⟨"w", "code", 0, 1, 0, 1000, "m", "a", 0, 0, 0⟩
          false 0 0).confidence
        < ((updatePatternStats ⟨"w", "code", 0, 1, 0, 1000, "m", "a", 0, 0, 0⟩
            false 0 0).success_count : ℚ)
          / (((updatePatternStats ⟨"w", "code", 0, 1, 0, 1000, "m", "a", 0, 0, 0⟩
              false 0 0).success_count : ℚ)
            + ((updatePatternStats ⟨"w", "code", 0, 1, 0, 1000, "m", "a", 0, 0, 0⟩
              false 0 0).failure_count : ℚ))) := by
  refine ⟨by norm_num [updatePatternStats], by norm_num [updatePatternStats], ?_⟩
  norm_num [updatePatternStats, patternConfidence]

/-- C6: recording an outcome twice for the same decision id leaves the log
exactly as recording only the second outcome would — both record calls
succeed, the two resulting stores agree everywhere, and the stored decision
reflects only the second outcome's fields. -/
theorem recordOutcome_last_write_wins (st : DecisionStore) (id : String)
    (dec : Decision) (o1 o2 : Outcome) (hd : st id = some dec) :
    recordOutcome st id o1 = .ok (setOutcome st id o1)
    ∧ recordOutcome (setOutcome st id o1) id o2
        = .ok (setOutcome (setOutcome st id o1) id o2)
    ∧ (∀ j, setOutcome (setOutcome st id o1) id o2 j = setOutcome st id o2 j)
    ∧ getDecision (setOutcome (setOutcome st id o1) id o2) id
        = some { dec with outcome := some o2 } := by
  refine ⟨?_, ?_, ?_, ?_⟩
  · unfold recordOutcome
    rw [hd]
  · have hsome : setOutcome st id o1 id = some { dec with outcome := some o1 } := by
      unfold setOutcome
      rw [if_pos rfl, hd]
      rfl
    unfold recordOutcome
    rw [hsome]
  · intro j
    unfold setOutcome
    by_cases hj : j = id
    · simp [hj]
      cases st id <;> simp
    · simp [hj]
  · unfold getDecision setOutcome
    simp [hd]

/-- C6 witness: a concrete one-decision log with two distinct outcomes
recorded in sequence. -/
theorem recordOutcome_last_write_wins_witness :
    recordOutcome (fun _ => some ⟨"w", 7/10, 2500, "code", true, false, false,
        "claude-sonnet-4-5", "anthropic", "complexity", 85/100, [], none⟩)
        "d1" ⟨true, 2800, 12/1000, 9/10, 1500⟩
      = .ok (setOutcome (fun _ => some ⟨"w", 7/10, 2500, "code", true, false, false,
          "claude-sonnet-4-5", "anthropic", "complexity", 85/100, [], none⟩)
          "d1" ⟨true, 2800, 12/1000, 9/10, 1500⟩)
    ∧ recordOutcome (setOutcome (fun _ => some ⟨"w", 7/10, 2500, "code", true, false, false,
          "claude-sonnet-4-5", "anthropic", "complexity", 85/100, [], none⟩)
          "d1" ⟨true, 2800, 12/1000, 9/10, 1500⟩) "d1" ⟨false, 100, 1/1000, 2/10, 300⟩
      = .ok (setOutcome (setOutcome (fun _ => some ⟨"w", 7/10, 2500, "code", true, false, false,
          "claude-sonnet-4-5", "anthropic", "complexity", 85/100, [], none⟩)
          "d1" ⟨true, 2800, 12/1000, 9/10, 1500⟩) "d1" ⟨false, 100, 1/1000, 2/10, 300⟩)
    ∧ (∀ j, setOutcome (setOutcome (fun _ => some ⟨"w", 7/10, 2500, "code", true, false, false,
          "claude-sonnet-4-5", "anthropic", "complexity", 85/100, [], none⟩)
          "d1" ⟨true, 2800, 12/1000, 9/10, 1500⟩) "d1" ⟨false, 100, 1/1000, 2/10, 300⟩ j
        = setOutcome (fun _ => some ⟨"w", 7/10, 2500, "code", true, false, false,
          "claude-sonnet-4-5", "anthropic", "complexity", 85/100, [], none⟩)
          "d1" ⟨false, 100, 1/1000, 2/10, 300⟩ j)
    ∧ getDecision (setOutcome (setOutcome (fun _ => some ⟨"w", 7/10, 2500, "code", true, false, false,
          "claude-sonnet-4-5", "anthropic", "complexity", 85/100, [], none⟩)
          "d1" ⟨true, 2800, 12/1000, 9/10, 1500⟩) "d1" ⟨false, 100, 1/1000, 2/10, 300⟩) "d1"
      = some ⟨"w", 7/10, 2500, "code", true, false, false,
          "claude-sonnet-4-5", "anthropic", "complexity", 85/100, [],
          some ⟨false, 100, 1/1000, 2/10, 300⟩⟩ :=
  recordOutcome_last_write_wins _ "d1" _ _ _ rfl

/-- C8: `getModelPerformance` is total — a never-observed key yields the
neutral default with success rate 1/2 and zero requests, and an observed
key yields its stored aggregate. -/
theorem getModelPerformance_never_fails (st : PerformanceStore)
    (wallet model task_type : String) :
    (st (wallet, model, task_type) = none →
      getModelPerformance st wallet model task_type = defaultPerformance
      ∧ (getModelPerformance st wallet model task_type).success_rate = 1/2
      ∧ (getModelPerformance st wallet model task_type).total_requests = 0)
    ∧ ∀ p, st (wallet, model, task_type) = some p →
        getModelPerformance st wallet model task_type = p := by
  constructor
  · intro h
    unfold getModelPerformance
    rw [h]
    exact ⟨rfl, rfl, rfl⟩
  · intro p h
    unfold getModelPerformance
    rw [h]
    rfl

/-- C8 witness: the empty performance table at one concrete key. -/
theorem getModelPerformance_never_fails_witness :
    ((fun _ => none : PerformanceStore) ("w", "m", "code") = none →
      getModelPerformance (fun _ => none) "w" "m" "code" = defaultPerformance
      ∧ (getModelPerformance (fun _ => none) "w" "m" "code").success_rate = 1/2
      ∧ (getModelPerformance (fun _ => none) "w" "m" "code").total_requests = 0)
    ∧ ∀ p, (fun _ => none : PerformanceStore) ("w", "m", "code") = some p →
        getModelPerformance (fun _ => none) "w" "m" "code" = p :=
  getModelPerformance_never_fails (fun _ => none) "w" "m" "code"

/-- One incremental-mean step turns a weighted total at count `c` into a
weighted total at count `c + 1`. -/
theorem stepMean_mul (old v : ℚ) (c : ℕ) :
    stepMean old v (c + 1) * ((c : ℚ) + 1) = old * c + v := by
  unfold stepMean
  have hc : ((c : ℚ) + 1) ≠ 0 := by positivity
  push_cast
  field_simp
  ring

/-- Fold invariant for `applyOutcomes`: each running average times the
request count equals the accumulated total, and the success rate times the
count equals the number of successes, over any starting aggregate. -/
theorem applyOutcomes_invariant (l : List Outcome) : ∀ p : ModelPerformance,
    (applyOutcomes p l).total_requests = p.total_requests + l.length
    ∧ (applyOutcomes p l).avg_cost * ((p.total_requests : ℚ) + l.length)
        = p.avg_cost * p.total_requests + (l.map (fun o => o.actual_cost_usd)).sum
    ∧ (applyOutcomes p l).avg_quality * ((p.total_requests : ℚ) + l.length)
        = p.avg_quality * p.total_requests + (l.map (fun o => o.response_quality)).sum
    ∧ (applyOutcomes p l).avg_latency * ((p.total_requests : ℚ) + l.length)
        = p.avg_latency * p.total_requests
          + (l.map (fun o => (o.response_time_ms : ℚ))).sum
    ∧ (applyOutcomes p l).success_rate * ((p.total_requests : ℚ) + l.length)
        = p.success_rate * p.total_requests
          + ((l.countP (fun o => o.was_successful) : ℚ)) := by
  induction l with
  | nil =>
      intro p
      simp [applyOutcomes]
  | cons o t ih =>
      intro p
      have hfold : applyOutcomes p (o :: t)
          = applyOutcomes (updateModelPerformance p o) t := rfl
      obtain ⟨h0, h1, h2, h3, h4⟩ := ih (updateModelPerformance p o)
      have hreq : (updateModelPerformance p o).total_requests
          = p.total_requests + 1 := rfl
      have hlen : ((o :: t).length : ℚ) = (t.length : ℚ) + 1 := by
        push_cast [List.length_cons]
        ring
      refine ⟨?_, ?_, ?_, ?_, ?_⟩
      · rw [hfold, h0, hreq, List.length_cons]
        omega
      · rw [hfold, hlen, show (p.total_requests : ℚ) + ((t.length : ℚ) + 1)
            = ((updateModelPerformance p o).total_requests : ℚ) + t.length by
              rw [hreq]; push_cast; ring, h1]
        have hstep : (updateModelPerformance p o).avg_cost
            * ((updateModelPerformance p o).total_requests : ℚ)
            = p.avg_cost * p.total_requests + o.actual_cost_usd := by
          rw [hreq]
          push_cast
          exact stepMean_mul p.avg_cost o.actual_cost_usd p.total_requests
        rw [hstep, List.map_cons, List.sum_cons]
        ring
      · rw [hfold, hlen, show (p.total_requests : ℚ) + ((t.length : ℚ) + 1)
            = ((updateModelPerformance p o).total_requests : ℚ) + t.length by
              rw [hreq]; push_cast; ring, h2]
        have hstep : (updateModelPerformance p o).avg_quality
            * ((updateModelPerformance p o).total_requests : ℚ)
            = p.avg_quality * p.total_requests + o.response_quality := by
          rw [hreq]
          push_cast
          exact stepMean_mul p.avg_quality o.response_quality p.total_requests
        rw [hstep, List.map_cons, List.sum_cons]
        ring
      · rw [hfold, hlen, show (p.total_requests : ℚ) + ((t.length : ℚ) + 1)
            = ((updateModelPerformance p o).total_requests : ℚ) + t.length by
              rw [hreq]; push_cast; ring, h3]
        have hstep : (updateModelPerformance p o).avg_latency
            * ((updateModelPerformance p o).total_requests : ℚ)
            = p.avg_latency * p.total_requests + (o.response_time_ms : ℚ) := by
          rw [hreq]
          push_cast
          exact stepMean_mul p.avg_latency (o.response_time_ms : ℚ) p.total_requests
        rw [hstep, List.map_cons, List.sum_cons]
        ring
      · rw [hfold, hlen, show (p.total_requests : ℚ) + ((t.length : ℚ) + 1)
            = ((updateModelPerformance p o).total_requests : ℚ) + t.length by
              rw [hreq]; push_cast; ring, h4]
        have hstep : (updateModelPerformance p o).success_rate
            * ((updateModelPerformance p o).total_requests : ℚ)
            = p.success_rate * p.total_requests
              + (if o.was_successful then (1:ℚ) else 0) := by
          rw [hreq]
          push_cast
          exact stepMean_mul p.success_rate (if o.was_successful then (1:ℚ) else 0)
            p.total_requests
        have hcount : ((o :: t).countP (fun x => x.was_successful) : ℚ)
            = (t.countP (fun x => x.was_successful) : ℚ)
              + (if o.was_successful then (1:ℚ) else 0) := by
          rw [List.countP_cons]
          by_cases h : o.was_successful <;> simp [h]
        rw [hstep, hcount]
        ring

/-- C7: starting from the neutral default, the incremental-mean updates of
`updateModelPerformance` over any nonempty outcome sequence produce the
arithmetic means of cost, quality and latency and the exact success
fraction. -/
theorem updateModelPerformance_means (l : List Outcome) (hne : l ≠ []) :
    (applyOutcomes defaultPerformance l).total_requests = l.length
    ∧ (applyOutcomes defaultPerformance l).avg_cost
        = (l.map (fun o => o.actual_cost_usd)).sum / l.length
    ∧ (applyOutcomes defaultPerformance l).avg_quality
        = (l.map (fun o => o.response_quality)).sum / l.length
    ∧ (applyOutcomes defaultPerformance l).avg_latency
        = (l.map (fun o => (o.response_time_ms : ℚ))).sum / l.length
    ∧ (applyOutcomes defaultPerformance l).success_rate
        = (l.countP (fun o => o.was_successful) : ℚ) / l.length := by
  obtain ⟨h0, h1, h2, h3, h4⟩ := applyOutcomes_invariant l defaultPerformance
  have hlen : ((l.length : ℚ)) ≠ 0 := by
    have := List.length_pos.mpr hne
    positivity
  refine ⟨by simpa [defaultPerformance] using h0, ?_, ?_, ?_, ?_⟩
  · rw [eq_div_iff hlen]
    simpa [defaultPerformance] using h1
  · rw [eq_div_iff hlen]
    simpa [defaultPerformance] using h2
  · rw [eq_div_iff hlen]
    simpa [defaultPerformance] using h3
  · rw [eq_div_iff hlen]
    simpa [defaultPerformance] using h4

/-- C7 witness: a two-outcome sequence, one success and one failure. -/
theorem updateModelPerformance_means_witness :
    (applyOutcomes defaultPerformance
        [⟨true, 2800, 12/1000, 9/10, 1500⟩, ⟨false, 100, 2/1000, 3/10, 500⟩]).total_requests
      = ([⟨true, 2800, 12/1000, 9/10, 1500⟩, ⟨false, 100, 2/1000, 3/10, 500⟩] : List Outcome).length
    ∧ (applyOutcomes defaultPerformance
        [⟨true, 2800, 12/1000, 9/10, 1500⟩, ⟨false, 100, 2/1000, 3/10, 500⟩]).avg_cost
      = (([⟨true, 2800, 12/1000, 9/10, 1500⟩, ⟨false, 100, 2/1000, 3/10, 500⟩] : List Outcome).map
          (fun o => o.actual_cost_usd)).sum
        / ([⟨true, 2800, 12/1000, 9/10, 1500⟩, ⟨false, 100, 2/1000, 3/10, 500⟩] : List Outcome).length
    ∧ (applyOutcomes defaultPerformance
        [⟨true, 2800, 12/1000, 9/10, 1500⟩, ⟨false, 100, 2/1000, 3/10, 500⟩]).avg_quality
      = (([⟨true, 2800, 12/1000, 9/10, 1500⟩, ⟨false, 100, 2/1000, 3/10, 500⟩] : List Outcome).map
          (fun o => o.response_quality)).sum
        / ([⟨true, 2800, 12/1000, 9/10, 1500⟩, ⟨false, 100, 2/1000, 3/10, 500⟩] : List Outcome).length
    ∧ (applyOutcomes defaultPerformance
        [⟨true, 2800, 12/1000, 9/10, 1500⟩, ⟨false, 100, 2/1000, 3/10, 500⟩]).avg_latency
      = (([⟨true, 2800, 12/1000, 9/10, 1500⟩, ⟨false, 100, 2/1000, 3/10, 500⟩] : List Outcome).map
          (fun o => (o.response_time_ms : ℚ))).sum
        / ([⟨true, 2800, 12/1000, 9/10, 1500⟩, ⟨false, 100, 2/1000, 3/10, 500⟩] : List Outcome).length
    ∧ (applyOutcomes defaultPerformance
        [⟨true, 2800, 12/1000, 9/10, 1500⟩, ⟨false, 100, 2/1000, 3/10, 500⟩]).success_rate
      = (([⟨true, 2800, 12/1000, 9/10, 1500⟩, ⟨false, 100, 2/1000, 3/10, 500⟩] : List Outcome).countP
          (fun o => o.was_successful) : ℚ)
        / ([⟨true, 2800, 12/1000, 9/10, 1500⟩, ⟨false, 100, 2/1000, 3/10, 500⟩] : List Outcome).length :=
  updateModelPerformance_means _ (List.cons_ne_nil _ _)

end Storage

end SmartRouter

namespace SmartRouter

namespace Selector

/-- The pairwise choice returns one of its two arguments. -/
theorem betterCandidate_cases (a b : Candidate) :
    betterCandidate a b = a ∨ betterCandidate a b = b := by
  unfold betterCandidate
  split_ifs <;> simp

/-- The pairwise choice never scores below its left argument, and on a
score tie never costs more than it. -/
theorem betterCandidate_left (a b : Candidate) :
    totalScore a ≤ totalScore (betterCandidate a b)
    ∧ (totalScore a = totalScore (betterCandidate a b) →
        (betterCandidate a b).estimated_cost ≤ a.estimated_cost) := by
  unfold betterCandidate
  split_ifs with h1 h2
  · exact ⟨le_of_lt h1, fun he => absurd he (ne_of_lt h1)⟩
  · exact ⟨le_of_eq h2.1.symm, fun _ => le_of_lt h2.2⟩
  · exact ⟨le_rfl, fun _ => le_rfl⟩

/-- The pairwise choice never scores below its right argument, and on a
score tie never costs more than it. -/
theorem betterCandidate_right (a b : Candidate) :
    totalScore b ≤ totalScore (betterCandidate a b)
    ∧ (totalScore b = totalScore (betterCandidate a b) →
        (betterCandidate a b).estimated_cost ≤ b.estimated_cost) := by
  unfold betterCandidate
  split_ifs with h1 h2
  · exact ⟨le_rfl, fun _ => le_rfl⟩
  · exact ⟨le_rfl, fun _ => le_rfl⟩
  · push_neg at h1 h2
    exact ⟨h1, fun he => h2 he⟩

/-- Fold invariant for the selector: the folded winner comes from the
accumulator or the list, never scores below either, and on a score tie
never costs more. -/
theorem foldl_better_spec (rest : List Candidate) : ∀ acc : Candidate,
    (rest.foldl betterCandidate acc = acc ∨ rest.foldl betterCandidate acc ∈ rest)
    ∧ (totalScore acc ≤ totalScore (rest.foldl betterCandidate acc)
        ∧ (totalScore acc = totalScore (rest.foldl betterCandidate acc) →
            (rest.foldl betterCandidate acc).estimated_cost ≤ acc.estimated_cost))
    ∧ ∀ c ∈ rest, totalScore c ≤ totalScore (rest.foldl betterCandidate acc)
        ∧ (totalScore c = totalScore (rest.foldl betterCandidate acc) →
            (rest.foldl betterCandidate acc).estimated_cost ≤ c.estimated_cost) := by
  induction rest with
  | nil =>
      intro acc
      refine ⟨Or.inl rfl, ⟨le_rfl, fun _ => le_rfl⟩, ?_⟩
      intro c hc
      exact absurd hc (List.not_mem_nil c)
  | cons b t ih =>
      intro acc
      have hfold : (b :: t).foldl betterCandidate acc
          = t.foldl betterCandidate (betterCandidate acc b) := rfl
      obtain ⟨hmem, ⟨hle, htie⟩, hall⟩ := ih (betterCandidate acc b)
      obtain ⟨hla, hta⟩ := betterCandidate_left acc b
      obtain ⟨hlb, htb⟩ := betterCandidate_right acc b
      rw [hfold]
      refine ⟨?_, ⟨le_trans hla hle, ?_⟩, ?_⟩
      · rcases hmem with h | h
        · rcases betterCandidate_cases acc b with hc | hc
          · exact Or.inl (h.trans hc)
          · refine Or.inr ?_
            rw [h.trans hc]
            exact List.mem_cons_self b t
        · exact Or.inr (List.mem_cons_of_mem b h)
      · intro he
        have heq : totalScore acc = totalScore (betterCandidate acc b) :=
          le_antisymm hla (he ▸ hle)
        have heq2 : totalScore (betterCandidate acc b)
            = totalScore (t.foldl betterCandidate (betterCandidate acc b)) := by
          rw [← heq]
          exact he
        exact le_trans (htie heq2) (hta heq)
      · intro c hc
        rcases List.mem_cons.mp hc with rfl | hct
        · refine ⟨le_trans hlb hle, ?_⟩
          intro he
          have heq : totalScore c = totalScore (betterCandidate acc c) :=
            le_antisymm hlb (he ▸ hle)
          have heq2 : totalScore (betterCandidate acc c)
              = totalScore (t.foldl betterCandidate (betterCandidate acc c)) := by
            rw [← heq]
            exact he
          exact le_trans (htie heq2) (htb heq)
        · exact hall c hct

/-- C1: on every nonempty candidate list `selectModel` returns a candidate
of the list whose weighted total score is maximal, and any candidate tying
that score has an estimated cost no lower than the winner's. -/
theorem selectModel_maximal (candidates : List Candidate)
    (hne : candidates ≠ []) :
    ∃ w, selectModel candidates = some w ∧ w ∈ candidates
      ∧ ∀ c ∈ candidates, totalScore c ≤ totalScore w
          ∧ (totalScore c = totalScore w → w.estimated_cost ≤ c.estimated_cost) := by
  match candidates with
  | [] => exact absurd rfl hne
  | a :: rest =>
      refine ⟨rest.foldl betterCandidate a, rfl, ?_, ?_⟩
      · rcases (foldl_better_spec rest a).1 with h | h
        · rw [h]
          exact List.mem_cons_self a rest
        · exact List.mem_cons_of_mem a h
      · intro c hc
        rcases List.mem_cons.mp hc with rfl | hct
        · exact (foldl_better_spec rest c).2.1
        · exact (foldl_better_spec rest a).2.2 c hct

/-- C1 witness: a concrete three-candidate configuration. -/
theorem selectModel_maximal_witness :
    ∃ w, selectModel
        [⟨"claude-haiku-4-5", "anthropic", 1/2, 9/10, 0, 1/2, 1/1000⟩,
         ⟨"claude-sonnet-4-5", "anthropic", 9/10, 1/2, 0, 1/2, 12/1000⟩,
         ⟨"claude-opus-4-5", "anthropic", 87/100, 62/100, 0, 1/2, 9/100⟩] = some w
      ∧ w ∈ [⟨"claude-haiku-4-5", "anthropic", 1/2, 9/10, 0, 1/2, 1/1000⟩,
         ⟨"claude-sonnet-4-5", "anthropic", 9/10, 1/2, 0, 1/2, 12/1000⟩,
         ⟨"claude-opus-4-5", "anthropic", 87/100, 62/100, 0, 1/2, 9/100⟩]
      ∧ ∀ c ∈ [⟨"claude-haiku-4-5", "anthropic", 1/2, 9/10, 0, 1/2, 1/1000⟩,
         ⟨"claude-sonnet-4-5", "anthropic", 9/10, 1/2, 0, 1/2, 12/1000⟩,
         ⟨"claude-opus-4-5", "anthropic", 87/100, 62/100, 0, 1/2, 9/100⟩],
          totalScore c ≤ totalScore w
          ∧ (totalScore c = totalScore w → w.estimated_cost ≤ c.estimated_cost) :=
  selectModel_maximal _ (List.cons_ne_nil _ _)

end Selector

namespace Analyzer

/-- C2: `analyzeTask` is total — every request receives a task type from
the fixed five-element enumeration, chosen by first match in the priority
order debugging, code, reasoning, writing, query, with a complexity score
in [0, 1]; the empty request receives the query type and the lowest
complexity 0. -/
theorem analyzeTask_total_spec :
    (∀ req : RouteRequest,
      0 ≤ (analyzeTask req).complexity_score
      ∧ (analyzeTask req).complexity_score ≤ 1
      ∧ (detectDebugging req = true → (analyzeTask req).task_type = .debugging)
      ∧ (detectDebugging req = false → detectCode req = true →
          (analyzeTask req).task_type = .code)
      ∧ (detectDebugging req = false → detectCode req = false →
          detectReasoning req = true → (analyzeTask req).task_type = .reasoning)
      ∧ (detectDebugging req = false → detectCode req = false →
          detectReasoning req = false → detectWriting req = true →
          (analyzeTask req).task_type = .writing)
      ∧ (detectDebugging req = false → detectCode req = false →
          detectReasoning req = false → detectWriting req = false →
          (analyzeTask req).task_type = .query))
    ∧ (analyzeTask ⟨"", ""⟩).task_type = .query
    ∧ (analyzeTask ⟨"", ""⟩).complexity_score = 0 := by
  refine ⟨?_, ?_, ?_⟩
  · intro req
    refine ⟨?_, ?_, ?_, ?_, ?_, ?_, ?_⟩
    · exact le_min (le_max_right _ 0) (by norm_num)
    · exact min_le_right _ 1
    · intro h
      simp [analyzeTask, classifyTaskType, h]
    · intro h1 h2
      simp [analyzeTask, classifyTaskType, h1, h2]
    · intro h1 h2 h3
      simp [analyzeTask, classifyTaskType, h1, h2, h3]
    · intro h1 h2 h3 h4
      simp [analyzeTask, classifyTaskType, h1, h2, h3, h4]
    · intro h1 h2 h3 h4
      simp [analyzeTask, classifyTaskType, h1, h2, h3, h4]
  · decide
  · show complexityScore ⟨"", ""⟩ = 0
    have hc : detectCode ⟨"", ""⟩ = false := by decide
    have he : detectErrors ⟨"", ""⟩ = false := by decide
    have hr : detectReasoning ⟨"", ""⟩ = false := by decide
    have ht : estimatedTokens ⟨"", ""⟩ = 0 := by decide
    rw [complexityScore, hc, he, hr, ht]
    norm_num [clamp01]

end Analyzer

end SmartRouter
